import Mathlib

/-!
Verification of the EcommerceScraper repository: a shallow embedding of its
extraction and pagination core (src/scraper/amazon_scraper.py,
src/scraper/base_scraper.py, src/config/settings.py, src/main.py), together
with theorems settling the specification claims about it.

DOM access through Selenium is modelled by snapshot structures holding, for
each CSS lookup the code performs, the data that lookup would observe
(element texts, attribute values, element counts).  Python exceptions are
modelled with `Option`/`Except`; Python's truthiness tests on strings are
modelled as comparison with the empty string.
-/

namespace EScrape

/-! ## String and character utilities modelling the Python primitives used -/

/-- Python str.strip(): drop whitespace from both ends (ASCII whitespace). -/
def pyStrip (s : String) : String :=
  String.mk (((s.toList.dropWhile Char.isWhitespace).reverse.dropWhile
    Char.isWhitespace).reverse)

/-- Python str.lower(), character-wise. -/
def pyLower (s : String) : String :=
  String.mk (s.toList.map Char.toLower)

/-- Does the pattern occur at the head of the list (Python str.startswith)? -/
def startsList : List Char → List Char → Bool
  | [], _ => true
  | _ :: _, [] => false
  | p :: ps, c :: cs => p == c && startsList ps cs

/-- Python substring test (pat in s). -/
def hasSubList (pat : List Char) : List Char → Bool
  | [] => startsList pat []
  | l@(_ :: tl) => startsList pat l || hasSubList pat tl

/-- Numeric value of a list of decimal digit characters. -/
def digitsToNat (l : List Char) : Nat :=
  l.foldl (fun acc c => acc * 10 + (c.toNat - '0'.toNat)) 0

/-- Python re.search of a digit run: the first maximal run of digits in the
text, as a number; none when the text has no digit. -/
def firstNat : List Char → Option Nat
  | [] => none
  | c :: cs =>
    if c.isDigit then some (digitsToNat (c :: cs.takeWhile Char.isDigit))
    else firstNat cs

/-! ## Review extraction (amazon_scraper.py, the second, overriding
definition of AmazonScraper._extract_reviews_from_page, lines 567-651).

A review node carries the observations the per-review lookups make:
the raw text of each singleton element lookup (none when
element.find_element raises NoSuchElementException), the count of elements
returned by each find_elements lookup, and the texts of the
helpful-vote-statement elements. -/

structure ReviewNode where
  /-- get_attribute "id" through safe_get_attribute (default ""). -/
  idAttr : String
  /-- raw text of "i.a-icon span.a-icon-alt" inside the node, when found. -/
  ratingEl : Option String
  /-- raw text of "[data-hook='review-title'] span" inside the node. -/
  titleEl : Option String
  /-- raw text of "[data-hook='review-body'] span" inside the node. -/
  bodyEl : Option String
  /-- raw text of "[data-hook='review-date']" inside the node. -/
  dateEl : Option String
  /-- number of "[data-hook='avp-badge']" elements inside the node. -/
  avpBadges : Nat
  /-- raw texts of "[data-hook='helpful-vote-statement']" elements. -/
  helpfulEls : List String
  /-- number of "[data-hook='vine-customer-review']" elements. -/
  vineEls : Nat
deriving DecidableEq

/-- A rendered review-listing page: the document-wide first ".a-profile-name"
element (the reviewer-name lookup at line 593 goes through
safe_find_element on the whole driver, not through the review node), and the
"[data-hook='review']" nodes.  A page whose reviews never load within the
wait timeout observes no review nodes. -/
structure PageSnapshot where
  profileName : Option String
  reviewNodes : List ReviewNode
deriving DecidableEq

/-- The review_data dictionary built for one review (all keys the code sets). -/
structure Review where
  review_id : String
  reviewer_name : String
  rating : Nat
  title : String
  review_text : String
  date : String
  verified_purchase : Bool
  helpful_votes : Nat
  vine_customer : Bool
deriving DecidableEq

/-- The reviewer-name lookup result (lines 593-597): the trimmed text of the
document-wide ".a-profile-name" element, or the sentinel "Anonymous". -/
def reviewerNameFrom (profileName : Option String) : String :=
  match profileName with
  | some t => pyStrip t
  | none => "Anonymous"

/-- One iteration of the per-review loop body (lines 586-638).  The four
element.find_element lookups (rating, title, body, date) raise when the
element is missing; the surrounding per-review handler (line 644) then skips
the review, so a missing one yields none.  The find_elements-based
sub-fields (verified badge, helpful votes, vine) and the document-wide
reviewer-name lookup cannot raise and degrade to their defaults. -/
def parseReviewNode (profileName : Option String) (n : ReviewNode) :
    Option Review :=
  match n.ratingEl, n.titleEl, n.bodyEl, n.dateEl with
  | some ratingRaw, some titleRaw, some bodyRaw, some dateRaw =>
    let ratingText := pyStrip ratingRaw
    some {
      review_id := n.idAttr
      reviewer_name := reviewerNameFrom profileName
      rating := if ratingText ≠ "" then (firstNat ratingText.toList).getD 0 else 0
      title := pyStrip titleRaw
      review_text := pyStrip bodyRaw
      date := pyStrip dateRaw
      verified_purchase := 0 < n.avpBadges
      helpful_votes :=
        match n.helpfulEls with
        | [] => 0
        | t :: _ => (firstNat (pyStrip t).toList).getD 0
      vine_customer := 0 < n.vineEls }
  | _, _, _, _ => none

/-- The per-review loop (lines 585-646): parse each node, skip a node whose
parse raised, and keep a parsed review only when its body text is truthy and
its stripped length is at least 10 (lines 640-642). -/
def extractReviewsLoop (profileName : Option String) :
    List ReviewNode → List Review
  | [] => []
  | n :: rest =>
    match parseReviewNode profileName n with
    | some r =>
      if r.review_text ≠ "" ∧ 10 ≤ (pyStrip r.review_text).length then
        r :: extractReviewsLoop profileName rest
      else extractReviewsLoop profileName rest
    | none => extractReviewsLoop profileName rest

/-- AmazonScraper._extract_reviews_from_page (second definition,
lines 567-651) on a rendered page snapshot. -/
def extractReviewsFromPage (p : PageSnapshot) : List Review :=
  extractReviewsLoop p.profileName p.reviewNodes

/-! ## A small pattern engine for the regular expressions the scraper uses.

Every regex in the source is a sequence of literal pieces, optional
whitespace runs and one capture group ([A-Z0-9]\x7b10\x7d).  Since each
whitespace run is followed by a non-whitespace literal, greedy matching
without backtracking coincides with the regex semantics, and re.search is
the leftmost such match. -/

/-- The character class [A-Z0-9]. -/
def asinChar (c : Char) : Bool :=
  ('A' ≤ c && c ≤ 'Z') || c.isDigit

/-- Match a literal at the head of the input, returning the remainder. -/
def matchLit : List Char → List Char → Option (List Char)
  | [], l => some l
  | _ :: _, [] => none
  | p :: ps, c :: cs => if p == c then matchLit ps cs else none

/-- One token of a source regex. -/
inductive PatTok where
  | lit (s : List Char)
  | ws
  | asin
deriving DecidableEq

/-- Match a token sequence at the head of the input; cap holds the capture
made so far and is returned on success. -/
def matchToksAux : List PatTok → List Char → Option String → Option String
  | [], _, cap => cap
  | .lit s :: rest, l, cap =>
    match matchLit s l with
    | some l2 => matchToksAux rest l2 cap
    | none => none
  | .ws :: rest, l, cap => matchToksAux rest (l.dropWhile Char.isWhitespace) cap
  | .asin :: rest, l, _cap =>
    let f := l.take 10
    if f.length == 10 && f.all asinChar then
      matchToksAux rest (l.drop 10) (some (String.mk f))
    else none

/-- Python re.search: try the token sequence at each position, leftmost
match wins. -/
def searchToks (toks : List PatTok) : List Char → Option String
  | [] => matchToksAux toks [] none
  | l@(_ :: tl) =>
    match matchToksAux toks l none with
    | some a => some a
    | none => searchToks toks tl

/-- r"/dp/([A-Z0-9]\x7b10\x7d)" -/
def dpPat : List PatTok := [.lit "/dp/".toList, .asin]

/-- r"/gp/product/([A-Z0-9]\x7b10\x7d)" -/
def gpPat : List PatTok := [.lit "/gp/product/".toList, .asin]

/-- r"asin=([A-Z0-9]\x7b10\x7d)" -/
def asinEqPat : List PatTok := [.lit "asin=".toList, .asin]

/-- the script pattern with quoted upper-case key and colon -/
def jsonUpperPat : List PatTok :=
  [.lit "\"ASIN\"".toList, .ws, .lit ":".toList, .ws, .lit "\"".toList,
   .asin, .lit "\"".toList]

/-- the script pattern with bare lower-case key and colon -/
def jsLowerColonPat : List PatTok :=
  [.lit "asin".toList, .ws, .lit ":".toList, .ws, .lit "\"".toList,
   .asin, .lit "\"".toList]

/-- the script pattern with quoted lower-case key and colon -/
def jsonLowerPat : List PatTok :=
  [.lit "\"asin\"".toList, .ws, .lit ":".toList, .ws, .lit "\"".toList,
   .asin, .lit "\"".toList]

/-- the script pattern with bare upper-case key and equals sign -/
def assignPat : List PatTok :=
  [.lit "ASIN".toList, .ws, .lit "=".toList, .ws, .lit "\"".toList,
   .asin, .lit "\"".toList]

/-- r"/([A-Z0-9]\x7b10\x7d)\." used on image URLs -/
def imgDotPat : List PatTok := [.lit "/".toList, .asin, .lit ".".toList]

/-! ## Configuration (src/config/settings.py).

Only the integer bounds the embedded components consume are modelled; the
pydantic settings object is externally configurable, so components take the
settings record as a parameter. -/

structure ScrapingSettings where
  MAX_REVIEWS_PER_PRODUCT : Nat := 1000
  MAX_PAGES_TO_SCRAPE : Nat := 20
  MAX_RETRIES : Nat := 3

/-- The process-wide settings object with its default values. -/
def settings : ScrapingSettings := {}

/-! ## Resilient navigation (base_scraper.py, navigate_with_retry,
lines 238-264).

One navigation attempt either raises (driver.get or an unabsorbed driver
error) or loads the page; after a load, dynamic-content settling and
anti-bot handling absorb their own failures internally
(handle_dynamic_content_loading catches its timeout, handle_anti_bot_measures
catches everything), so a loaded attempt always returns True, and the flags
record what those absorbed steps observed. -/

inductive AttemptResult where
  | loaded (settleTimeout : Bool) (challengeDetected : Bool)
  | raised (msg : String)
deriving DecidableEq

/-- Did the attempt load the page (no exception escaped the try body)? -/
def AttemptResult.didLoad : AttemptResult → Bool
  | .loaded _ _ => true
  | .raised _ => false

/-- The retry loop, fuel-structured: fuel is the number of remaining
iterations of range(MAX_RETRIES) and i the current 0-based attempt index
(fuel + i = MAX_RETRIES at every call).  A raised attempt sleeps
(i + 1) * 2 seconds before the next one, except after the last attempt
(lines 256-262); the returned list records the sleeps performed. -/
def navigateFrom (maxRetries : Nat) (attempts : Nat → AttemptResult) :
    Nat → Nat → Bool × List Nat
  | 0, _ => (false, [])
  | fuel + 1, i =>
    match attempts i with
    | .loaded _ _ => (true, [])
    | .raised _ =>
      if i < maxRetries - 1 then
        let r := navigateFrom maxRetries attempts fuel (i + 1)
        (r.1, (i + 1) * 2 :: r.2)
      else (false, [])

/-- BaseScraper.navigate_with_retry: Bool result plus the backoff sleeps. -/
def navigate_with_retry (s : ScrapingSettings)
    (attempts : Nat → AttemptResult) : Bool × List Nat :=
  navigateFrom s.MAX_RETRIES attempts s.MAX_RETRIES 0

/-! ## ASIN extraction (amazon_scraper.py).

A product page snapshot records what each BeautifulSoup / URL lookup
observes.  Attribute lookups with a default are flattened accordingly. -/

structure ProductPage where
  /-- driver.current_url. -/
  currentUrl : String
  /-- meta[name=pageId]: some c when the tag exists, c its content
  attribute (none when the attribute is absent). -/
  metaPageId : Option (Option String)
  /-- first element carrying a data-asin attribute, with its value. -/
  dataAsin : Option String
  /-- script tags; script.string is None for non-text scripts. -/
  scripts : List (Option String)
  /-- input[name=ASIN]: some v when present, v its value attribute. -/
  inputAsin : Option (Option String)
  /-- img src attributes (safe default ""). -/
  imgSrcs : List String
deriving DecidableEq

/-- Python str.isalnum (ASCII approximation): nonempty and alphanumeric. -/
def pyIsAlnum (s : String) : Bool :=
  !s.toList.isEmpty && s.toList.all Char.isAlphanum

/-- The script scan of the public extract_asin_from_page (lines 72-77):
only the quoted upper-case pattern is tried. -/
def scriptsScanJson : List (Option String) → Option String
  | [] => none
  | none :: rest => scriptsScanJson rest
  | some s :: rest =>
    match searchToks jsonUpperPat s.toList with
    | some a => some a
    | none => scriptsScanJson rest

/-- AmazonScraper.extract_asin_from_page (public, lines 52-83): meta tag
(returning its content attribute unvalidated, even when the attribute is
missing), then the data-asin attribute unvalidated, then the script scan. -/
def extract_asin_from_page (p : ProductPage) : Option String :=
  match p.metaPageId with
  | some content => content
  | none =>
    match p.dataAsin with
    | some v => some v
    | none => scriptsScanJson p.scripts

/-- AmazonScraper.extract_asin (lines 35-50): three URL patterns in order,
then the public page extraction. -/
def extract_asin (url : String) (p : ProductPage) : Option String :=
  match searchToks dpPat url.toList with
  | some a => some a
  | none =>
    match searchToks gpPat url.toList with
    | some a => some a
    | none =>
      match searchToks asinEqPat url.toList with
      | some a => some a
      | none => extract_asin_from_page p

/-- Method 1 (lines 194-197): the /dp/ pattern against the current URL. -/
def asinMethodUrl (p : ProductPage) : Option String :=
  searchToks dpPat p.currentUrl.toList

/-- Method 2 (lines 200-204): meta pageId content (default ""), accepted
when of length 10 and alphanumeric. -/
def asinMethodMeta (p : ProductPage) : Option String :=
  match p.metaPageId with
  | some c =>
    let content := c.getD ""
    if content.length == 10 && pyIsAlnum content then some content else none
  | none => none

/-- Method 3 (lines 207-211): data-asin attribute, accepted when truthy and
of length 10 (no alphanumeric check in the source). -/
def asinMethodData (p : ProductPage) : Option String :=
  match p.dataAsin with
  | some v => if v != "" && v.length == 10 then some v else none
  | none => none

/-- The four script-variable patterns, in source order (lines 218-223). -/
def scriptPats : List (List PatTok) :=
  [jsonUpperPat, jsLowerColonPat, jsonLowerPat, assignPat]

/-- Try a list of patterns in order on one text. -/
def tryPats : List (List PatTok) → List Char → Option String
  | [], _ => none
  | pat :: rest, l =>
    match searchToks pat l with
    | some a => some a
    | none => tryPats rest l

/-- Method 4 (lines 214-228): scan script tags, each against the four
patterns in order. -/
def asinMethodScripts : List (Option String) → Option String
  | [] => none
  | none :: rest => asinMethodScripts rest
  | some s :: rest =>
    match tryPats scriptPats s.toList with
    | some a => some a
    | none => asinMethodScripts rest

/-- Method 5 (lines 231-235): input[name=ASIN] value, accepted when truthy
and of length 10 (no alphanumeric check in the source). -/
def asinMethodInput (p : ProductPage) : Option String :=
  match p.inputAsin with
  | some (some v) => if v != "" && v.length == 10 then some v else none
  | some none => none
  | none => none

/-- Method 6 (lines 238-245): img src attributes containing "/images/I/",
searched for /([A-Z0-9]\x7b10\x7d)\. -/
def asinMethodImages : List String → Option String
  | [] => none
  | src :: rest =>
    if hasSubList "/images/I/".toList src.toList then
      match searchToks imgDotPat src.toList with
      | some a => some a
      | none => asinMethodImages rest
    else asinMethodImages rest

/-- AmazonScraper._extract_asin_from_page (lines 183-252): the six methods
in order, first early return wins. -/
def extractAsinFromPageFull (p : ProductPage) : Option String :=
  match asinMethodUrl p with
  | some a => some a
  | none =>
  match asinMethodMeta p with
  | some a => some a
  | none =>
  match asinMethodData p with
  | some a => some a
  | none =>
  match asinMethodScripts p.scripts with
  | some a => some a
  | none =>
  match asinMethodInput p with
  | some a => some a
  | none => asinMethodImages p.imgSrcs

/-! ## Review pagination (amazon_scraper.py, collect_customer_reviews,
lines 520-565). -/

structure ReviewListingPage where
  snapshot : PageSnapshot
  /-- class attribute of the "li.a-last a" next control when the control is
  found; none when it is absent (or its attribute read raises, which the
  bare except of lines 558-559 turns into the same break). -/
  nextButtonClass : Option String

/-- Environment of one collect_customer_reviews call: the argument URL, the
already-loaded product page (consulted by extract_asin), the navigation
attempt outcomes for the reviews URL, and the listing page reached after i
next-clicks. -/
structure ReviewEnv where
  url : String
  page : ProductPage
  navAttempts : Nat → AttemptResult
  pages : Nat → ReviewListingPage

/-- The for-loop over range(1, max_pages + 1) (lines 542-559),
fuel-structured on the remaining iterations, i counting the next-clicks
performed.  Each iteration extracts the current page; the loop then breaks
when the next control is absent or carries "a-disabled" in its class, and
otherwise clicks through to the next page.  The second component counts the
pages the loop extracted (instrumentation for the bound property). -/
def reviewPages (env : ReviewEnv) : Nat → Nat → List Review × Nat
  | 0, _ => ([], 0)
  | fuel + 1, i =>
    let pg := env.pages i
    let rs := extractReviewsFromPage pg.snapshot
    match pg.nextButtonClass with
    | some cls =>
      if hasSubList "a-disabled".toList cls.toList then (rs, 1)
      else
        let r := reviewPages env fuel (i + 1)
        (rs ++ r.1, r.2 + 1)
    | none => (rs, 1)

/-- AmazonScraper.collect_customer_reviews: extract the ASIN (returning
empty on failure), navigate to the reviews URL with retry (returning empty
on failure), then run the page loop.  max_pages is the keyword parameter,
whose declared default is 5 — the Python signature is
collect_customer_reviews(self, url, max_pages=5). -/
def collect_customer_reviews (s : ScrapingSettings) (env : ReviewEnv)
    (maxPages : Nat) : List Review × Nat :=
  match extract_asin env.url env.page with
  | none => ([], 0)
  | some _ =>
    if (navigate_with_retry s env.navAttempts).1 then
      reviewPages env maxPages 0
    else ([], 0)

/-! ## Product-details extraction (amazon_scraper.py, lines 99-181 and the
per-field helpers it calls).  Each selector chain is modelled by the list of
observations its selectors make: none when the selector finds no element,
some t when it finds one with raw text t; chains over find_elements carry
the list of texts (or src attributes) per selector. -/

/-- Python substring char test (c in s). -/
def pyHasChar (s : String) (c : Char) : Bool :=
  s.toList.contains c

/-- re.sub(r"[^\d.]", "", s): keep only digits and decimal points. -/
def stripNonDigitDot (s : String) : String :=
  String.mk (s.toList.filter (fun c => c.isDigit || c == '.'))

/-- One bounded replacement pass for str.replace; the fuel (instantiated
with the input length, which each step strictly decreases under) keeps the
recursion structural so proofs can evaluate it. -/
def replaceAllFuel (pat rep : List Char) : Nat → List Char → List Char
  | 0, l => l
  | _ + 1, [] => []
  | fuel + 1, c :: rest =>
    if startsList pat (c :: rest) && !pat.isEmpty then
      rep ++ replaceAllFuel pat rep fuel (rest.drop (pat.length - 1))
    else c :: replaceAllFuel pat rep fuel rest

/-- Python str.replace(pat, rep) (all occurrences, left to right). -/
def pyReplace (s pat rep : String) : String :=
  String.mk (replaceAllFuel pat.toList rep.toList s.toList.length s.toList)

/-- re.search(r"(\d+\.?\d*)", s) converted by float(): the first digit run,
with an optional fractional part. -/
def firstDecimal : List Char → Option Rat
  | [] => none
  | c :: cs =>
    if c.isDigit then
      let ip := c :: cs.takeWhile Char.isDigit
      some (match cs.dropWhile Char.isDigit with
        | '.' :: rest2 =>
          let fp := rest2.takeWhile Char.isDigit
          (digitsToNat ip : Rat) + (digitsToNat fp : Rat) / ((10 : Rat) ^ fp.length)
        | _ => (digitsToNat ip : Rat))
    else firstDecimal cs

/-- re.search(r"([\d,]+)", s): first maximal run of digits and commas. -/
def firstDigitCommaRun : List Char → Option (List Char)
  | [] => none
  | c :: cs =>
    if c.isDigit || c == ',' then
      some (c :: cs.takeWhile (fun d => d.isDigit || d == ','))
    else firstDigitCommaRun cs

/-- The seller_info sub-dictionary (line 470). -/
structure SellerInfo where
  name : String
deriving DecidableEq

/-- The product_data dictionary.  seller_info and availability model keys
the dictionary acquires only when the corresponding extraction step runs
and succeeds; every other key is present from initialisation. -/
structure ProductData where
  url : String
  name : String
  price : String
  currency : String
  rating : Rat
  review_count : Nat
  features : List String
  seller_name : String
  asin : String
  images : List String
  seller_info : Option SellerInfo
  availability : Option String
deriving DecidableEq

/-- The initial product_data dictionary (lines 111-122). -/
def initProductData (resolvedUrl : String) : ProductData :=
  { url := resolvedUrl, name := "", price := "", currency := "", rating := 0,
    review_count := 0, features := [], seller_name := "", asin := "",
    images := [], seller_info := none, availability := none }

/-- The symbol chain of _extract_price_info (lines 272-285) on one truthy
price text: dollar, rupee, pound, euro checked in that order; with no
symbol the currency key is left untouched (its initial value is the empty
string, the code's representation of an unknown currency). -/
def priceFromText (priceText : String) (pd : ProductData) : ProductData :=
  if pyHasChar priceText '$' then
    { pd with currency := "USD", price := stripNonDigitDot priceText }
  else if pyHasChar priceText '₹' then
    { pd with currency := "INR", price := stripNonDigitDot priceText }
  else if pyHasChar priceText '£' then
    { pd with currency := "GBP", price := stripNonDigitDot priceText }
  else if pyHasChar priceText '€' then
    { pd with currency := "EUR", price := stripNonDigitDot priceText }
  else
    { pd with price := stripNonDigitDot priceText }

/-- AmazonScraper._extract_price_info (lines 256-288): first selector whose
element has truthy stripped text wins; a found element with empty text lets
the chain continue. -/
def extract_price_info : List (Option String) → ProductData → ProductData
  | [], pd => pd
  | none :: rest, pd => extract_price_info rest pd
  | some t :: rest, pd =>
    let priceText := pyStrip t
    if priceText ≠ "" then priceFromText priceText pd
    else extract_price_info rest pd

/-- The rating half of _extract_rating_info (lines 293-307): first selector
whose element text is truthy and contains a decimal number wins. -/
def ratingScan : List (Option String) → Option Rat
  | [] => none
  | none :: rest => ratingScan rest
  | some t :: rest =>
    if t ≠ "" then
      match firstDecimal t.toList with
      | some q => some q
      | none => ratingScan rest
    else ratingScan rest

/-- The review-count half of _extract_rating_info (lines 310-327): first
selector whose element text matches [\d,]+ and survives int() after comma
stripping wins; a comma-only match raises ValueError and the chain
continues. -/
def countScan : List (Option String) → Option Nat
  | [] => none
  | none :: rest => countScan rest
  | some t :: rest =>
    let countText := pyStrip t
    if countText ≠ "" then
      match firstDigitCommaRun countText.toList with
      | some run =>
        let ds := run.filter (fun d => d != ',')
        if ds.isEmpty then countScan rest else some (digitsToNat ds)
      | none => countScan rest
    else countScan rest

/-- AmazonScraper._extract_rating_info (lines 290-329). -/
def extract_rating_info (ratingTexts countTexts : List (Option String))
    (pd : ProductData) : ProductData :=
  let pd2 := match ratingScan ratingTexts with
    | some q => { pd with rating := q }
    | none => pd
  match countScan countTexts with
  | some n => { pd2 with review_count := n }
  | none => pd2

/-- re.sub(r"^[•\-\*]\s*", "", s): drop one leading bullet glyph and the
whitespace after it. -/
def stripBullet (l : List Char) : List Char :=
  match l with
  | c :: rest =>
    if c == '•' || c == '-' || c == '*' then rest.dropWhile Char.isWhitespace
    else l
  | [] => []

/-- AmazonScraper._extract_features (lines 441-460): first selector
yielding any elements wins; of its first 10 elements keep those whose
stripped text is truthy, longer than 10 characters and not boilerplate,
bullet-stripped and re-stripped. -/
def extract_features : List (List String) → List String
  | [] => []
  | [] :: rest => extract_features rest
  | (e :: es) :: _ =>
    ((e :: es).take 10).foldl
      (fun acc t =>
        let ft := pyStrip t
        if ft ≠ "" ∧ 10 < ft.length ∧
            startsList "Make sure".toList ft.toList = false then
          acc ++ [pyStrip (String.mk (stripBullet ft.toList))]
        else acc) []

/-- The selector loop of _extract_seller_info (lines 472-478): first found
element whose stripped text is truthy and not a "Visit..." link wins, its
text taken with "Brand:" removed and re-stripped; otherwise the empty
string. -/
def sellerScan : List (Option String) → String
  | [] => ""
  | none :: rest => sellerScan rest
  | some t :: rest =>
    let sellerText := pyStrip t
    if sellerText ≠ "" ∧ startsList "Visit".toList sellerText.toList = false then
      pyStrip (pyReplace sellerText "Brand:" "")
    else sellerScan rest

/-- The seller name _extract_seller_info stores (lines 480-483): the scan
result, with the falsy empty string replaced by the "Amazon" sentinel. -/
def extract_seller_name (texts : List (Option String)) : String :=
  let n := sellerScan texts
  if n = "" then "Amazon" else n

/-- AmazonScraper._extract_availability (lines 486-500): first found
element whose text mentions stock or availability wins; no key is written
otherwise. -/
def availabilityScan : List (Option String) → Option String
  | [] => none
  | none :: rest => availabilityScan rest
  | some t :: rest =>
    let availabilityText := pyStrip t
    if hasSubList "stock".toList (pyLower availabilityText).toList
        || hasSubList "available".toList (pyLower availabilityText).toList then
      some availabilityText
    else availabilityScan rest

/-- AmazonScraper._extract_images (lines 502-517): first selector yielding
elements wins; of its first 5 elements keep the truthy src attributes
containing "http". -/
def extract_images : List (List String) → List String
  | [] => []
  | [] :: rest => extract_images rest
  | (e :: es) :: _ =>
    ((e :: es).take 5).foldl
      (fun acc srcv =>
        if (srcv != "") && hasSubList "http".toList srcv.toList then
          acc ++ [srcv]
        else acc) []

/-- The product-name chain (lines 136-147): the first selector that finds
an element wins, whatever its text. -/
def nameScan : List (Option String) → Option String
  | [] => none
  | none :: rest => nameScan rest
  | some t :: _ => some (pyStrip t)

/-- Observations for one extract_product_details run, one list per
selector chain. -/
structure DetailsPage where
  page : ProductPage
  nameTexts : List (Option String)
  priceTexts : List (Option String)
  ratingTexts : List (Option String)
  countTexts : List (Option String)
  featureLists : List (List String)
  sellerTexts : List (Option String)
  availTexts : List (Option String)
  imageLists : List (List String)

/-- The body of the try block of extract_product_details after navigation
succeeded (lines 131-165), run on the freshly initialised dictionary: each
field extractor in source order.  features and images start empty, so the
in-place appends equal assignment of the chain results. -/
def buildDetails (d : DetailsPage) (pd : ProductData) : ProductData :=
  let pd1 := { pd with asin := (extract_asin_from_page d.page).getD "" }
  let pd2 := match nameScan d.nameTexts with
    | some nm => { pd1 with name := nm }
    | none => pd1
  let pd3 := extract_price_info d.priceTexts pd2
  let pd4 := extract_rating_info d.ratingTexts d.countTexts pd3
  let pd5 := { pd4 with features := extract_features d.featureLists }
  let pd6 := { pd5 with
    seller_info := some { name := extract_seller_name d.sellerTexts } }
  let pd7 := match availabilityScan d.availTexts with
    | some a => { pd6 with availability := some a }
    | none => pd6
  { pd7 with images := extract_images d.imageLists }

/-! ## Orchestration (amazon_scraper.py resolve_short_url lines 85-95,
extract_product_details lines 99-181, scrape_product lines 679-694). -/

/-- AmazonScraper.resolve_short_url: the redirect-following HEAD probe
either yields a final URL or raises; any raise is caught and the original
URL returned unmodified. -/
def resolve_short_url (probe : Except String String) (url : String) : String :=
  match probe with
  | .ok finalUrl => finalUrl
  | .error _ => url

/-- Environment of one scrape_product run. -/
structure ScrapeEnv where
  /-- outcome of the requests.head probe in resolve_short_url. -/
  probe : Except String String
  /-- exception raised by driver.get inside the try of
  extract_product_details, when any (the only raise site of that block;
  every helper after it absorbs its own failures). -/
  navRaises : Option String
  details : DetailsPage
  reviewEnv : ReviewEnv

/-- The try block of extract_product_details (lines 124-177): an error
carries the exception and the dictionary as built so far (navigation is
its first fallible statement, so the dictionary is still the initial one). -/
def detailsTryBlock (env : ScrapeEnv) (pd : ProductData) :
    Except (String × ProductData) ProductData :=
  match env.navRaises with
  | some e => .error (e, pd)
  | none => .ok (buildDetails env.details pd)

/-- AmazonScraper.extract_product_details: resolve the URL, initialise the
dictionary, run the try block, and on exception log and return the
dictionary as built so far (lines 178-181). -/
def extract_product_details (env : ScrapeEnv) (url : String) : ProductData :=
  let resolvedUrl := resolve_short_url env.probe url
  let pd := initProductData resolvedUrl
  match detailsTryBlock env pd with
  | .ok pd2 => pd2
  | .error ep => ep.2

/-- extract_product_details in the exception monad: the catch at line 178
maps the error branch to a normal return, so no exception escapes. -/
def extractProductDetailsE (env : ScrapeEnv) (url : String) :
    Except String ProductData :=
  let resolvedUrl := resolve_short_url env.probe url
  let pd := initProductData resolvedUrl
  match detailsTryBlock env pd with
  | .ok pd2 => .ok pd2
  | .error ep => .ok ep.2

/-- collect_customer_reviews in the exception monad: its body is wrapped in
a try whose except returns the reviews gathered so far, so no exception
escapes; called by scrape_product with the max_pages default of 5. -/
def collectCustomerReviewsE (s : ScrapingSettings) (env : ReviewEnv) :
    Except String (List Review) :=
  .ok (collect_customer_reviews s env 5).1

/-- The dictionary scrape_product returns (lines 689-694); the wall-clock
timestamp is not modelled. -/
structure ScrapeResult where
  product_details : ProductData
  reviews : List Review
  total_reviews_scraped : Nat
deriving DecidableEq

/-- AmazonScraper.scrape_product in the exception monad: details, then
reviews, then the result dictionary. -/
def scrape_product (s : ScrapingSettings) (env : ScrapeEnv) (url : String) :
    Except String ScrapeResult := do
  let pd ← extractProductDetailsE env url
  let rs ← collectCustomerReviewsE s env.reviewEnv
  pure { product_details := pd, reviews := rs,
         total_reviews_scraped := rs.length }

/-! ## Entry point (src/main.py, lines 90-116). -/

/-- The allow-list of main.is_amazon_url (lines 92-95). -/
def amazonDomains : List String :=
  ["amazon.com", "amazon.in", "amazon.co.uk", "amazon.de",
   "amzn.in", "amzn.to", "a.co"]

/-- main.is_amazon_url: some allow-listed domain occurs as a substring of
the lowercased URL. -/
def is_amazon_url (url : String) : Bool :=
  amazonDomains.any (fun d => hasSubList d.toList (pyLower url).toList)

/-- Outcome of scrape_amazon_product as main observes it: the empty
dictionary (interrupt or escaped exception, lines 66-71) or a completed
result. -/
inductive RunOutcome where
  | interrupted
  | completed (r : ScrapeResult)

/-- main (lines 90-116) followed by the sys.exit at line 116, as the pair
of the process exit code and whether scraping was started at all: an URL
failing the allow-list exits 1 with no navigation attempted; otherwise the
run happens and the exit code is 0 exactly when the review collection is
non-empty. -/
def mainRun (url : String) (outcome : RunOutcome) : Nat × Bool :=
  if is_amazon_url url = false then (1, false)
  else
    match outcome with
    | .interrupted => (1, true)
    | .completed r => if r.reviews.isEmpty then (1, true) else (0, true)

/-! ## Concrete instances used by witness and counterexample theorems -/

/-- A product page on which every ASIN lookup comes up empty. -/
def emptyProductPage : ProductPage :=
  { currentUrl := "https://a.co/d/abc", metaPageId := none, dataAsin := none,
    scripts := [], inputAsin := none, imgSrcs := [] }

/-- A details page on which every selector chain comes up empty. -/
def emptyDetailsPage : DetailsPage :=
  { page := emptyProductPage, nameTexts := [], priceTexts := [],
    ratingTexts := [], countTexts := [], featureLists := [], sellerTexts := [],
    availTexts := [], imageLists := [] }

/-- A trivial review environment: ASIN recoverable from the URL, navigation
loads at once, every listing page is empty with no next control. -/
def trivialReviewEnv : ReviewEnv :=
  { url := "https://www.amazon.com/dp/B0123ABCDE", page := emptyProductPage,
    navAttempts := fun _ => .loaded false false,
    pages := fun _ =>
      { snapshot := { profileName := none, reviewNodes := [] },
        nextButtonClass := none } }

/-- C2 counterexample node: qualifying body, no date element. -/
def c2NodeNoDate : ReviewNode :=
  { idAttr := "R10", ratingEl := some "5.0 out of 5 stars",
    titleEl := some "Great", bodyEl := some "Works very well indeed",
    dateEl := none, avpBadges := 1, helpfulEls := [], vineEls := 0 }

/-- C2 counterexample page. -/
def c2Page : PageSnapshot :=
  { profileName := some "Alice", reviewNodes := [c2NodeNoDate] }

/-- C2 witness node missing only the title element. -/
def c2WNodeNoTitle : ReviewNode :=
  { idAttr := "RW1", ratingEl := some "3.0 out of 5 stars", titleEl := none,
    bodyEl := some "Adequate for the price", dateEl := some "1 June",
    avpBadges := 0, helpfulEls := [], vineEls := 0 }

/-- C2 witness node with all four required elements. -/
def c2WNodeGood : ReviewNode :=
  { idAttr := "RW2", ratingEl := some "4.0 out of 5 stars",
    titleEl := some "Nice", bodyEl := some "Totally fine product",
    dateEl := some "2 June", avpBadges := 0, helpfulEls := [], vineEls := 0 }

/-- The record c2WNodeGood parses to with no profile element on the page. -/
def c2WParsed : Review :=
  { review_id := "RW2", reviewer_name := "Anonymous", rating := 4,
    title := "Nice", review_text := "Totally fine product", date := "2 June",
    verified_purchase := false, helpful_votes := 0, vine_customer := false }

/-- C3: a settings record externally configured with a one-page bound. -/
def c3LowSettings : ScrapingSettings := { MAX_PAGES_TO_SCRAPE := 1 }

/-- C3: a review environment whose next control is always enabled. -/
def c3Env : ReviewEnv :=
  { url := "https://www.amazon.com/dp/B0123ABCDE", page := emptyProductPage,
    navAttempts := fun _ => .loaded false false,
    pages := fun _ =>
      { snapshot := { profileName := none, reviewNodes := [] },
        nextButtonClass := some "a-last" } }

/-- C5 counterexample: a page whose only ASIN source is a data-asin
attribute of length 10 that is not alphanumeric. -/
def c5CEPage : ProductPage :=
  { currentUrl := "https://a.co/d/abc", metaPageId := none,
    dataAsin := some "ABCD-12345", scripts := [], inputAsin := none,
    imgSrcs := [] }

/-- C5 witness: a page whose only ASIN source is a script-variable
pattern. -/
def c5WPage : ProductPage :=
  { currentUrl := "https://a.co/d/abc", metaPageId := none, dataAsin := none,
    scripts := [some "var a = 1; \"asin\" : \"B0123ABCDE\" ;"],
    inputAsin := none, imgSrcs := [] }

/-- C5 witness: a page whose only ASIN source is a product-image URL. -/
def c5WPage2 : ProductPage :=
  { currentUrl := "https://a.co/d/abc", metaPageId := none, dataAsin := none,
    scripts := [none], inputAsin := none,
    imgSrcs := ["https://m.media-amazon.com/images/I/B0123ABCDE.jpg"] }

/-- C6: attempt outcomes whose first attempt raises and whose second loads
with both a settling timeout and a detected challenge. -/
def c6Attempts : Nat → AttemptResult :=
  fun j => if j == 1 then .loaded true true else .raised "net::ERR_TIMED_OUT"

/-- C7: an environment whose URL probe and product navigation both fail. -/
def c7Env : ScrapeEnv :=
  { probe := .error "ReadTimeout", navRaises := some "net::ERR_TIMED_OUT",
    details := emptyDetailsPage, reviewEnv := trivialReviewEnv }

/-- C8: the source URL of the counterexample run. -/
def c8Url : String := "https://a.co/d/abc"

/-- C8 counterexample environment: the URL resolves, the page has a seller
element, but navigation inside the details try block raises. -/
def c8FailEnv : ScrapeEnv :=
  { probe := .ok "https://www.amazon.com/dp/B0123ABCDE",
    navRaises := some "net::ERR_TIMED_OUT",
    details := { emptyDetailsPage with sellerTexts := [some "Acme Corp"] },
    reviewEnv := trivialReviewEnv }

/-- C8 witness environment: a completed run with no usable seller text. -/
def c8OkEnv : ScrapeEnv :=
  { probe := .ok "https://www.amazon.com/dp/B0123ABCDE", navRaises := none,
    details := emptyDetailsPage, reviewEnv := trivialReviewEnv }

/-- C9: one retained review for the successful-exit witness. -/
def c9Review : Review :=
  { review_id := "R1", reviewer_name := "Casey", rating := 5,
    title := "Great", review_text := "Works very well indeed",
    date := "1 May", verified_purchase := true, helpful_votes := 3,
    vine_customer := false }

/-- C9: a completed scrape result with one review. -/
def c9Result : ScrapeResult :=
  { product_details := initProductData "https://www.amazon.com/dp/B0123ABCDE",
    reviews := [c9Review], total_reviews_scraped := 1 }

/-- C10: first review node of the witness page. -/
def c10NodeA : ReviewNode :=
  { idAttr := "RA", ratingEl := some "5.0 out of 5 stars",
    titleEl := some "Great", bodyEl := some "Works very well indeed",
    dateEl := some "1 May", avpBadges := 1,
    helpfulEls := ["3 people found this helpful"], vineEls := 0 }

/-- C10: second review node of the witness page. -/
def c10NodeB : ReviewNode :=
  { idAttr := "RB", ratingEl := some "1.0 out of 5 stars",
    titleEl := some "Bad", bodyEl := some "Broke after a single day",
    dateEl := some "2 May", avpBadges := 0, helpfulEls := [], vineEls := 1 }

/-- C10: the witness page, whose document-wide profile element reads
" Casey ". -/
def c10Page : PageSnapshot :=
  { profileName := some " Casey ", reviewNodes := [c10NodeA, c10NodeB] }

/-- C10: the record c10NodeA is extracted to. -/
def c10Rec : Review :=
  { review_id := "RA", reviewer_name := "Casey", rating := 5,
    title := "Great", review_text := "Works very well indeed",
    date := "1 May", verified_purchase := true, helpful_votes := 3,
    vine_customer := false }

/-! ## Theorems settling the claims -/

/-- Auxiliary: a string whose stripped form has length at least 10 is
truthy. -/
theorem ne_empty_of_stripped_len {s : String}
    (h : 10 ≤ (pyStrip s).length) : s ≠ "" := by
  intro he
  subst he
  exact absurd h (by decide)

/-- C1: the active review extractor returns exactly the parsed review
candidates whose body text strips to length at least 10; the truthiness
conjunct of the source gate is subsumed by the length bound, so the length
bound is the sole retention filter and no deduplication is applied (the
result is literally a filter of the parsed-candidate sequence).  Candidates
are the review nodes the per-review loop parses without raising; the
behavior of raising nodes is the subject of C2. -/
theorem review_retention_gate (p : PageSnapshot) :
    extractReviewsFromPage p =
      (p.reviewNodes.filterMap (parseReviewNode p.profileName)).filter
        (fun r => decide (10 ≤ (pyStrip r.review_text).length)) := by
  unfold extractReviewsFromPage
  induction p.reviewNodes with
  | nil => rfl
  | cons n rest ih =>
    rw [List.filterMap_cons]
    cases hn : parseReviewNode p.profileName n with
    | none => simpa [extractReviewsLoop, hn] using ih
    | some r =>
      by_cases hlen : 10 ≤ (pyStrip r.review_text).length
      · have hne : r.review_text ≠ "" := ne_empty_of_stripped_len hlen
        simp only [extractReviewsLoop, hn, if_pos (And.intro hne hlen),
          List.filter_cons, decide_eq_true hlen, ih]
        simp
      · have : ¬(r.review_text ≠ "" ∧ 10 ≤ (pyStrip r.review_text).length) := by
          rintro ⟨-, h2⟩; exact hlen h2
        simp only [extractReviewsLoop, hn, if_neg this, List.filter_cons, ih]
        simp [hlen]

/-- C2 counterexample: a review node with a qualifying body but no date
element is dropped entirely by the active extractor instead of being
retained with an empty datePosted: the body text strips to length 22 ≥ 10,
yet the page extraction returns the empty sequence. -/
theorem review_missing_date_not_retained :
    10 ≤ (pyStrip (c2NodeNoDate.bodyEl.getD "")).length ∧
    extractReviewsFromPage c2Page = [] := by
  exact ⟨by decide, rfl⟩

/-- C2 amended: in the active extractor, only the find_elements-based
sub-fields and the reviewer-name lookup degrade to sentinel defaults
(Anonymous, false, 0, false); a missing rating, title, body or date element
raises inside the per-review try, so that review is skipped entirely —
yielding no record at all rather than a record with an empty date — while
extraction of the remaining reviews continues. -/
theorem review_subfield_failure_granularity (profileName : Option String)
    (n : ReviewNode) (rest : List ReviewNode) :
    (parseReviewNode profileName n = none ↔
      n.ratingEl = none ∨ n.titleEl = none ∨ n.bodyEl = none ∨
        n.dateEl = none) ∧
    (parseReviewNode profileName n = none →
      extractReviewsLoop profileName (n :: rest) =
        extractReviewsLoop profileName rest) ∧
    (∀ r, parseReviewNode profileName n = some r →
      (profileName = none → r.reviewer_name = "Anonymous") ∧
      (n.helpfulEls = [] → r.helpful_votes = 0) ∧
      (n.avpBadges = 0 → r.verified_purchase = false) ∧
      (n.vineEls = 0 → r.vine_customer = false)) := by
  obtain ⟨idA, rEl, tEl, bEl, dEl, avp, helf, vine⟩ := n
  refine ⟨?_, ?_, ?_⟩
  · cases rEl <;> cases tEl <;> cases bEl <;> cases dEl <;>
      simp [parseReviewNode]
  · intro hnone
    simp [extractReviewsLoop, hnone]
  · intro r hr
    cases rEl <;> cases tEl <;> cases bEl <;> cases dEl <;>
      simp only [parseReviewNode, Option.some.injEq, reduceCtorEq] at hr
    subst hr
    refine ⟨?_, ?_, ?_, ?_⟩
    · intro hp; subst hp; rfl
    · intro hh; subst hh; rfl
    · intro ha; subst ha; simp
    · intro hv; subst hv; simp

/-- Witness for the C2 amended theorem: a node missing its title element is
skipped without disturbing its sibling, and a well-formed node on a page
with no profile element parses with the Anonymous sentinel. -/
theorem review_subfield_failure_granularity_witness :
    extractReviewsLoop (some "Pat") (c2WNodeNoTitle :: [c2WNodeGood]) =
      extractReviewsLoop (some "Pat") [c2WNodeGood] ∧
    c2WParsed.reviewer_name = "Anonymous" := by
  refine ⟨?_, ?_⟩
  · exact (review_subfield_failure_granularity (some "Pat") c2WNodeNoTitle
      [c2WNodeGood]).2.1 (by rfl)
  · exact (((review_subfield_failure_granularity none c2WNodeGood []).2.2
      c2WParsed (by rfl)).1) rfl

/-- Auxiliary: the pagination loop performs at most fuel iterations. -/
theorem reviewPages_count_le (env : ReviewEnv) :
    ∀ fuel i, (reviewPages env fuel i).2 ≤ fuel := by
  intro fuel
  induction fuel with
  | zero => intro i; exact Nat.le_refl 0
  | succ n ih =>
    intro i
    simp only [reviewPages]
    cases h : (env.pages i).nextButtonClass with
    | none => simp
    | some cls =>
      simp only
      split
      · exact Nat.succ_le_succ (Nat.zero_le n)
      · exact Nat.succ_le_succ (ih (i + 1))

/-- C3 counterexample: with MAX_PAGES_TO_SCRAPE externally configured to 1
and a next control that never reports disabled, the review loop still
extracts 5 pages (the hard-coded max_pages default of the method), so the
configured bound does not bound the pages visited. -/
theorem pagination_exceeds_configured_bound :
    (collect_customer_reviews c3LowSettings c3Env 5).2 = 5 ∧
    c3LowSettings.MAX_PAGES_TO_SCRAPE = 1 := by
  exact ⟨by decide, rfl⟩

/-- C3 amended: pagination always terminates and visits at most max_pages
pages (the method parameter, 5 under the default with which scrape_product
invokes it) whatever the environment, also when the next control never
reports disabled; the settings record influences the run only through
MAX_RETRIES — MAX_PAGES_TO_SCRAPE is never consulted. -/
theorem pagination_bounded_by_parameter (s s2 : ScrapingSettings)
    (env : ReviewEnv) (maxPages : Nat) :
    (collect_customer_reviews s env maxPages).2 ≤ maxPages ∧
    (s.MAX_RETRIES = s2.MAX_RETRIES →
      collect_customer_reviews s env maxPages =
        collect_customer_reviews s2 env maxPages) := by
  constructor
  · unfold collect_customer_reviews
    cases extract_asin env.url env.page with
    | none => simp
    | some a =>
      by_cases h : (navigate_with_retry s env.navAttempts).1 = true
      · simp [h, reviewPages_count_le]
      · simp [h]
  · intro h
    unfold collect_customer_reviews navigate_with_retry
    rw [h]

/-- Witness for the C3 amended theorem at the default page bound and at two
settings records differing only in MAX_PAGES_TO_SCRAPE. -/
theorem pagination_bounded_by_parameter_witness :
    (collect_customer_reviews settings c3Env 5).2 ≤ 5 ∧
    collect_customer_reviews c3LowSettings c3Env 5 =
      collect_customer_reviews settings c3Env 5 := by
  refine ⟨(pagination_bounded_by_parameter settings settings c3Env 5).1, ?_⟩
  exact (pagination_bounded_by_parameter c3LowSettings settings c3Env 5).2 rfl

/-- Auxiliary: a cons form for the backoff schedule. -/
theorem backoff_cons (k i : Nat) :
    (List.range (k + 1)).map (fun j => (i + j + 1) * 2) =
      (i + 1) * 2 :: (List.range k).map (fun j => (i + 1 + j + 1) * 2) := by
  rw [List.range_succ_eq_map]
  simp only [List.map_cons, List.map_map, Function.comp_def]
  refine congrArg₂ _ (by omega) ?_
  apply List.map_congr_left
  intro a _
  omega

/-- Auxiliary: when every attempt raises, the retry loop returns false with
the full backoff schedule (no sleep after the last attempt). -/
theorem navigateFrom_all_raised (m : Nat) (attempts : Nat → AttemptResult) :
    ∀ fuel i, fuel + i = m →
      (∀ j, i ≤ j → j < m → (attempts j).didLoad = false) →
      navigateFrom m attempts fuel i =
        (false, (List.range (m - 1 - i)).map (fun j => (i + j + 1) * 2)) := by
  intro fuel
  induction fuel with
  | zero =>
    intro i hm hall
    have h0 : m - 1 - i = 0 := by omega
    rw [h0]
    rfl
  | succ n ih =>
    intro i hm hall
    have hi : i < m := by omega
    have hra := hall i (Nat.le_refl i) hi
    simp only [navigateFrom]
    cases hA : attempts i with
    | loaded st ch => rw [hA] at hra; simp [AttemptResult.didLoad] at hra
    | raised msg =>
      by_cases hlast : i < m - 1
      · rw [if_pos hlast]
        rw [ih (i + 1) (by omega) (fun j hj1 hj2 => hall j (by omega) hj2)]
        have hrange : m - 1 - i = (m - 1 - (i + 1)) + 1 := by omega
        rw [hrange, backoff_cons]
      · rw [if_neg hlast]
        have h0 : m - 1 - i = 0 := by omega
        rw [h0]
        rfl

/-- Auxiliary: when the first loading attempt is attempt k, the retry loop
returns true having slept only before the attempts up to k. -/
theorem navigateFrom_first_loaded (m : Nat) (attempts : Nat → AttemptResult) :
    ∀ fuel i k, fuel + i = m → i ≤ k → k < m →
      (∀ j, i ≤ j → j < k → (attempts j).didLoad = false) →
      (attempts k).didLoad = true →
      navigateFrom m attempts fuel i =
        (true, (List.range (k - i)).map (fun j => (i + j + 1) * 2)) := by
  intro fuel
  induction fuel with
  | zero => intro i k hm hik hkm hall hk; omega
  | succ n ih =>
    intro i k hm hik hkm hall hk
    simp only [navigateFrom]
    by_cases hik2 : i = k
    · subst hik2
      cases hA : attempts i with
      | loaded st ch => simp
      | raised msg => rw [hA] at hk; simp [AttemptResult.didLoad] at hk
    · have hiklt : i < k := by omega
      cases hA : attempts i with
      | loaded st ch =>
        have hfalse := hall i (Nat.le_refl i) hiklt
        rw [hA] at hfalse
        simp [AttemptResult.didLoad] at hfalse
      | raised msg =>
        have hlast : i < m - 1 := by omega
        rw [if_pos hlast]
        rw [ih (i + 1) k (by omega) (by omega) hkm
          (fun j h1 h2 => hall j (by omega) h2) hk]
        have hrange : k - i = (k - (i + 1)) + 1 := by omega
        rw [hrange, backoff_cons]

/-- Auxiliary: when some attempt within range loads, the retry loop
returns true. -/
theorem navigateFrom_true_of_loaded (m : Nat) (attempts : Nat → AttemptResult) :
    ∀ fuel i, fuel + i = m →
      (∃ k, i ≤ k ∧ k < m ∧ (attempts k).didLoad = true) →
      (navigateFrom m attempts fuel i).1 = true := by
  intro fuel
  induction fuel with
  | zero =>
    intro i hm hex
    obtain ⟨k, h1, h2, _⟩ := hex
    omega
  | succ n ih =>
    intro i hm hex
    obtain ⟨k, h1, h2, hk⟩ := hex
    simp only [navigateFrom]
    cases hA : attempts i with
    | loaded st ch => rfl
    | raised msg =>
      have hik : i ≠ k := by
        rintro rfl
        rw [hA] at hk
        simp [AttemptResult.didLoad] at hk
      have hlast : i < m - 1 := by omega
      rw [if_pos hlast]
      simpa using ih (i + 1) (by omega) ⟨k, by omega, h2, hk⟩

/-- C6: navigate_with_retry reports False exactly when all MAX_RETRIES
attempts raised; when the first loading attempt is attempt k (0-based) the
call returns True — whatever settling timeout or challenge that attempt
absorbed — having slept the linearly increasing schedule 2, 4, ... before
the attempts up to k; and a False result slept the full schedule of
MAX_RETRIES - 1 backoffs (none after the final attempt). -/
theorem navigate_retry_contract (s : ScrapingSettings)
    (attempts : Nat → AttemptResult) :
    ((navigate_with_retry s attempts).1 = false ↔
      ∀ j, j < s.MAX_RETRIES → (attempts j).didLoad = false) ∧
    (∀ k st ch, k < s.MAX_RETRIES →
      (∀ j, j < k → (attempts j).didLoad = false) →
      attempts k = AttemptResult.loaded st ch →
      navigate_with_retry s attempts =
        (true, (List.range k).map (fun j => (j + 1) * 2))) ∧
    ((navigate_with_retry s attempts).1 = false →
      (navigate_with_retry s attempts).2 =
        (List.range (s.MAX_RETRIES - 1)).map (fun j => (j + 1) * 2)) := by
  have hiff : (navigate_with_retry s attempts).1 = false ↔
      ∀ j, j < s.MAX_RETRIES → (attempts j).didLoad = false := by
    constructor
    · intro hfalse j hj
      by_contra hload
      have hT : (attempts j).didLoad = true := by
        cases hL : (attempts j).didLoad
        · exact absurd hL hload
        · rfl
      have := navigateFrom_true_of_loaded s.MAX_RETRIES attempts
        s.MAX_RETRIES 0 (by omega) ⟨j, Nat.zero_le j, hj, hT⟩
      unfold navigate_with_retry at hfalse
      rw [this] at hfalse
      cases hfalse
    · intro hall
      unfold navigate_with_retry
      rw [navigateFrom_all_raised s.MAX_RETRIES attempts s.MAX_RETRIES 0
        (by omega) (fun j _ hj => hall j hj)]
  refine ⟨hiff, ?_, ?_⟩
  · intro k st ch hk hall hA
    unfold navigate_with_retry
    rw [navigateFrom_first_loaded s.MAX_RETRIES attempts s.MAX_RETRIES 0 k
      (by omega) (Nat.zero_le k) hk (fun j _ hj => hall j hj)
      (by rw [hA]; rfl)]
    simp
  · intro hfalse
    have hall := hiff.mp hfalse
    unfold navigate_with_retry
    rw [navigateFrom_all_raised s.MAX_RETRIES attempts s.MAX_RETRIES 0
      (by omega) (fun j _ hj => hall j hj)]
    simp

/-- Witness for C6: with the default MAX_RETRIES of 3, a first attempt that
raises and a second that loads despite a settling timeout and a detected
challenge yield True after a single 2-unit backoff. -/
theorem navigate_retry_contract_witness :
    navigate_with_retry settings c6Attempts = (true, [2]) := by
  have h := (navigate_retry_contract settings c6Attempts).2.1 1 true true
    (by decide)
    (fun j hj => by
      have hj0 : j = 0 := by omega
      subst hj0
      rfl)
    (by rfl)
  simpa using h

/-- C4: on the freshly initialised record, the price branch determines the
currency by the symbol chain dollar, rupee, pound, euro — the first symbol
present in the raw text under that closed mapping wins — and a text with
none of the four symbols leaves the currency at its unknown sentinel (the
initial empty string, the code's representation of UNKNOWN) while the
numeric substring, all non-digit non-decimal-point characters stripped, is
still stored as the price in every case. -/
theorem currency_detection (u t : String) :
    (priceFromText t (initProductData u)).price = stripNonDigitDot t ∧
    ((priceFromText t (initProductData u)).currency = "USD" ↔
      pyHasChar t '$' = true) ∧
    ((priceFromText t (initProductData u)).currency = "INR" ↔
      (pyHasChar t '$' = false ∧ pyHasChar t '₹' = true)) ∧
    ((priceFromText t (initProductData u)).currency = "GBP" ↔
      (pyHasChar t '$' = false ∧ pyHasChar t '₹' = false ∧
        pyHasChar t '£' = true)) ∧
    ((priceFromText t (initProductData u)).currency = "EUR" ↔
      (pyHasChar t '$' = false ∧ pyHasChar t '₹' = false ∧
        pyHasChar t '£' = false ∧ pyHasChar t '€' = true)) ∧
    ((priceFromText t (initProductData u)).currency = "" ↔
      (pyHasChar t '$' = false ∧ pyHasChar t '₹' = false ∧
        pyHasChar t '£' = false ∧ pyHasChar t '€' = false)) := by
  cases h1 : pyHasChar t '$' <;> cases h2 : pyHasChar t '₹' <;>
    cases h3 : pyHasChar t '£' <;> cases h4 : pyHasChar t '€' <;>
    simp [priceFromText, initProductData, h1, h2, h3, h4]

/-- Auxiliary: a capture produced by the token matcher is 10 characters of
the class [A-Z0-9]. -/
theorem matchToksAux_capture :
    ∀ toks l cap a, matchToksAux toks l cap = some a →
      cap = some a ∨ (a.length = 10 ∧ a.toList.all asinChar = true) := by
  intro toks
  induction toks with
  | nil => intro l cap a h; exact Or.inl h
  | cons tk rest ih =>
    intro l cap a h
    cases tk with
    | lit s =>
      simp only [matchToksAux] at h
      cases hm : matchLit s l with
      | none => rw [hm] at h; cases h
      | some l2 => rw [hm] at h; exact ih l2 cap a h
    | ws =>
      simp only [matchToksAux] at h
      exact ih _ cap a h
    | asin =>
      simp only [matchToksAux] at h
      by_cases hc : ((l.take 10).length == 10 && (l.take 10).all asinChar) = true
      · rw [if_pos hc] at h
        rcases ih _ _ _ h with h1 | h1
        · right
          have ha : a = String.mk (l.take 10) := (Option.some.inj h1).symm
          subst ha
          simp only [Bool.and_eq_true] at hc
          exact ⟨eq_of_beq hc.1, hc.2⟩
        · exact Or.inr h1
      · rw [if_neg hc] at h; cases h

/-- Auxiliary: any capture a regex search returns is a validated
10-character [A-Z0-9] candidate. -/
theorem searchToks_valid (toks : List PatTok) :
    ∀ l a, searchToks toks l = some a →
      a.length = 10 ∧ a.toList.all asinChar = true := by
  intro l
  induction l with
  | nil =>
    intro a h
    rw [searchToks] at h
    rcases matchToksAux_capture toks [] none a h with h1 | h1
    · cases h1
    · exact h1
  | cons c tl ih =>
    intro a h
    rw [searchToks] at h
    cases hm : matchToksAux toks (c :: tl) none with
    | some b =>
      rw [hm] at h
      cases h
      rcases matchToksAux_capture toks (c :: tl) none a hm with h1 | h1
      · cases h1
      · exact h1
    | none => rw [hm] at h; exact ih a h

/-- Auxiliary: validation for a chain of patterns. -/
theorem tryPats_valid :
    ∀ pats l a, tryPats pats l = some a →
      a.length = 10 ∧ a.toList.all asinChar = true := by
  intro pats
  induction pats with
  | nil => intro l a h; cases h
  | cons p rest ih =>
    intro l a h
    rw [tryPats] at h
    cases hm : searchToks p l with
    | some b => rw [hm] at h; cases h; exact searchToks_valid p l _ hm
    | none => rw [hm] at h; exact ih l a h

/-- Auxiliary: validation for the script-variable strategy. -/
theorem asinMethodScripts_valid :
    ∀ scripts a, asinMethodScripts scripts = some a →
      a.length = 10 ∧ a.toList.all asinChar = true := by
  intro scripts
  induction scripts with
  | nil => intro a h; cases h
  | cons sc rest ih =>
    intro a h
    cases sc with
    | none => exact ih a h
    | some s =>
      rw [asinMethodScripts] at h
      cases hm : tryPats scriptPats s.toList with
      | some b =>
        rw [hm] at h
        cases h
        exact tryPats_valid scriptPats s.toList _ hm
      | none => rw [hm] at h; exact ih a h

/-- Auxiliary: validation for the asset-URL strategy. -/
theorem asinMethodImages_valid :
    ∀ srcs a, asinMethodImages srcs = some a →
      a.length = 10 ∧ a.toList.all asinChar = true := by
  intro srcs
  induction srcs with
  | nil => intro a h; cases h
  | cons src rest ih =>
    intro a h
    rw [asinMethodImages] at h
    by_cases hs : hasSubList "/images/I/".toList src.toList = true
    · rw [if_pos hs] at h
      cases hm : searchToks imgDotPat src.toList with
      | some b =>
        rw [hm] at h
        cases h
        exact searchToks_valid imgDotPat src.toList _ hm
      | none => rw [hm] at h; exact ih a h
    · rw [if_neg hs] at h; exact ih a h

/-- Auxiliary: the metadata strategy validates length and alphanumeric. -/
theorem asinMethodMeta_valid (p : ProductPage) (a : String)
    (h : asinMethodMeta p = some a) :
    a.length = 10 ∧ pyIsAlnum a = true := by
  unfold asinMethodMeta at h
  cases hc : p.metaPageId with
  | none => rw [hc] at h; cases h
  | some c =>
    rw [hc] at h
    simp only at h
    by_cases hcond : ((c.getD "").length == 10 && pyIsAlnum (c.getD "")) = true
    · rw [if_pos hcond] at h
      cases h
      simp only [Bool.and_eq_true] at hcond
      exact ⟨eq_of_beq hcond.1, hcond.2⟩
    · rw [if_neg hcond] at h; cases h

/-- Auxiliary: the data-attribute strategy validates only the length. -/
theorem asinMethodData_len (p : ProductPage) (a : String)
    (h : asinMethodData p = some a) : a.length = 10 := by
  unfold asinMethodData at h
  cases hc : p.dataAsin with
  | none => rw [hc] at h; cases h
  | some v =>
    rw [hc] at h
    simp only at h
    by_cases hcond : ((v != "") && v.length == 10) = true
    · rw [if_pos hcond] at h
      cases h
      have hcond2 := hcond
      simp only [Bool.and_eq_true] at hcond2
      exact eq_of_beq hcond2.2
    · rw [if_neg hcond] at h; cases h

/-- Auxiliary: the form-input strategy validates only the length. -/
theorem asinMethodInput_len (p : ProductPage) (a : String)
    (h : asinMethodInput p = some a) : a.length = 10 := by
  unfold asinMethodInput at h
  cases hc : p.inputAsin with
  | none => rw [hc] at h; cases h
  | some c =>
    cases c with
    | none => rw [hc] at h; cases h
    | some v =>
      rw [hc] at h
      simp only at h
      by_cases hcond : ((v != "") && v.length == 10) = true
      · rw [if_pos hcond] at h
        cases h
        have hcond2 := hcond
        simp only [Bool.and_eq_true] at hcond2
        exact eq_of_beq hcond2.2
      · rw [if_neg hcond] at h; cases h

/-- C5 counterexample: a page whose only ASIN source is a 10-character but
non-alphanumeric data-asin attribute; strategy 3 accepts it, so not every
strategy validates its candidate as alphanumeric. -/
theorem asin_nonalnum_accepted :
    extractAsinFromPageFull c5CEPage = some "ABCD-12345" ∧
    ("ABCD-12345" : String).length = 10 ∧
    pyIsAlnum "ABCD-12345" = false := by
  exact ⟨by decide, by decide, by decide⟩

/-- C5 amended: the page-level extractor tries the six strategies in the
fixed order URL pattern, metadata tag, data attribute, script patterns,
form input, asset URLs, the first match winning (a strategy is consulted
only when all earlier ones failed); every accepted candidate has length 10,
and the URL, script and asset-URL strategies only produce [A-Z0-9]
candidates while the metadata strategy checks isalnum — but the
data-attribute and form-input strategies check only the length, not
alphanumeric membership. -/
theorem asin_strategy_contract (p : ProductPage) :
    (∀ a, extractAsinFromPageFull p = some a → a.length = 10) ∧
    (∀ a, asinMethodUrl p = some a → a.toList.all asinChar = true) ∧
    (∀ a, asinMethodMeta p = some a → pyIsAlnum a = true) ∧
    (∀ a, asinMethodScripts p.scripts = some a →
      a.toList.all asinChar = true) ∧
    (∀ a, asinMethodImages p.imgSrcs = some a →
      a.toList.all asinChar = true) ∧
    (∀ a, asinMethodUrl p = some a → extractAsinFromPageFull p = some a) ∧
    (asinMethodUrl p = none → asinMethodMeta p = none →
      asinMethodData p = none → asinMethodScripts p.scripts = none →
      asinMethodInput p = none →
      extractAsinFromPageFull p = asinMethodImages p.imgSrcs) := by
  refine ⟨?_, ?_, ?_, ?_, ?_, ?_, ?_⟩
  · intro a h
    unfold extractAsinFromPageFull at h
    cases h1 : asinMethodUrl p with
    | some b =>
      rw [h1] at h
      cases h
      exact (searchToks_valid dpPat p.currentUrl.toList a h1).1
    | none =>
    rw [h1] at h
    cases h2 : asinMethodMeta p with
    | some b =>
      rw [h2] at h
      cases h
      exact (asinMethodMeta_valid p a h2).1
    | none =>
    rw [h2] at h
    cases h3 : asinMethodData p with
    | some b =>
      rw [h3] at h
      cases h
      exact asinMethodData_len p a h3
    | none =>
    rw [h3] at h
    cases h4 : asinMethodScripts p.scripts with
    | some b =>
      rw [h4] at h
      cases h
      exact (asinMethodScripts_valid p.scripts a h4).1
    | none =>
    rw [h4] at h
    cases h5 : asinMethodInput p with
    | some b =>
      rw [h5] at h
      cases h
      exact asinMethodInput_len p a h5
    | none =>
    rw [h5] at h
    exact (asinMethodImages_valid p.imgSrcs a h).1
  · intro a h
    exact (searchToks_valid dpPat p.currentUrl.toList a h).2
  · intro a h
    exact (asinMethodMeta_valid p a h).2
  · intro a h
    exact (asinMethodScripts_valid p.scripts a h).2
  · intro a h
    exact (asinMethodImages_valid p.imgSrcs a h).2
  · intro a h
    unfold extractAsinFromPageFull
    rw [h]
  · intro h1 h2 h3 h4 h5
    unfold extractAsinFromPageFull
    rw [h1, h2, h3, h4, h5]

/-- Witness for the C5 amended theorem: a candidate embedded only in a
script-variable pattern is returned with length 10, and on a page where the
first five strategies all fail the extractor is exactly the asset-URL
strategy. -/
theorem asin_strategy_contract_witness :
    ("B0123ABCDE" : String).length = 10 ∧
    extractAsinFromPageFull c5WPage2 = asinMethodImages c5WPage2.imgSrcs := by
  constructor
  · exact (asin_strategy_contract c5WPage).1 "B0123ABCDE" (by decide)
  · exact (asin_strategy_contract c5WPage2).2.2.2.2.2.2 (by decide) (by decide)
      (by decide) (by decide) (by decide)

/-- Auxiliary: the price branch never touches the url key. -/
theorem priceFromText_url (t : String) (pd : ProductData) :
    (priceFromText t pd).url = pd.url := by
  unfold priceFromText
  split_ifs <;> rfl

/-- Auxiliary: the price chain never touches the url key. -/
theorem extract_price_info_url :
    ∀ texts pd, (extract_price_info texts pd).url = pd.url := by
  intro texts
  induction texts with
  | nil => intro pd; rfl
  | cons t rest ih =>
    intro pd
    cases t with
    | none => exact ih pd
    | some v =>
      simp only [extract_price_info]
      split
      · exact priceFromText_url _ _
      · exact ih pd

/-- Auxiliary: the rating extraction never touches the url key. -/
theorem extract_rating_info_url (rt ct : List (Option String))
    (pd : ProductData) : (extract_rating_info rt ct pd).url = pd.url := by
  unfold extract_rating_info
  cases ratingScan rt <;> cases countScan ct <;> rfl

/-- Auxiliary: the details try block never touches the url key. -/
theorem buildDetails_url (d : DetailsPage) (pd : ProductData) :
    (buildDetails d pd).url = pd.url := by
  unfold buildDetails
  cases availabilityScan d.availTexts <;>
    cases nameScan d.nameTexts <;>
    simp [extract_rating_info_url, extract_price_info_url]

/-- Auxiliary: a completed try block always stores a seller_info key with
the extracted seller name. -/
theorem buildDetails_seller (d : DetailsPage) (pd : ProductData) :
    (buildDetails d pd).seller_info =
      some { name := extract_seller_name d.sellerTexts } := by
  unfold buildDetails
  cases availabilityScan d.availTexts <;> simp

/-- C7: scrape_product returns normally for every environment — in
particular when the short-URL probe and the product navigation both raise —
because extract_product_details and collect_customer_reviews catch every
internal failure; the result carries the resolved URL, and whenever the
redirect-following probe raises, resolution falls back to the original URL
unmodified. -/
theorem scrape_product_never_throws (s : ScrapingSettings) (env : ScrapeEnv)
    (url : String) :
    (∃ r, scrape_product s env url = Except.ok r ∧
      r.product_details.url = resolve_short_url env.probe url) ∧
    (∀ msg, env.probe = Except.error msg →
      resolve_short_url env.probe url = url) := by
  constructor
  · unfold scrape_product extractProductDetailsE collectCustomerReviewsE
      detailsTryBlock
    cases hn : env.navRaises with
    | some e =>
      refine ⟨_, rfl, ?_⟩
      rfl
    | none =>
      refine ⟨_, rfl, ?_⟩
      rw [buildDetails_url]
      rfl
  · intro msg h
    unfold resolve_short_url
    rw [h]

/-- Witness for C7: a run whose probe raises ReadTimeout and whose product
navigation raises still returns a result, with the original URL kept. -/
theorem scrape_product_never_throws_witness :
    (∃ r, scrape_product settings c7Env "https://amzn.to/d/abc" =
        Except.ok r ∧
      r.product_details.url =
        resolve_short_url c7Env.probe "https://amzn.to/d/abc") ∧
    resolve_short_url c7Env.probe "https://amzn.to/d/abc" =
      "https://amzn.to/d/abc" := by
  exact ⟨(scrape_product_never_throws settings c7Env "https://amzn.to/d/abc").1,
    (scrape_product_never_throws settings c7Env "https://amzn.to/d/abc").2
      "ReadTimeout" rfl⟩

/-- C8 counterexample: when navigation inside the details try block raises,
the returned dictionary has no seller_info key at all and its seller_name
key is still the empty string — not the platform-default sentinel — even
though the page carries a seller element. -/
theorem product_record_missing_seller_key :
    (extract_product_details c8FailEnv c8Url).seller_info = none ∧
    (extract_product_details c8FailEnv c8Url).seller_name = "" ∧
    c8FailEnv.details.sellerTexts = [some "Acme Corp"] := by
  exact ⟨rfl, rfl, rfl⟩

/-- C8 amended: when the details try block completes, the record carries a
seller_info key whose name falls back to the "Amazon" sentinel when the
seller chain resolves nothing; when the try block raises, the record is
exactly the initial dictionary — the ten initialised keys at their
documented empty and zero defaults — and the seller_info and availability
keys are absent, with seller_name left at the empty string rather than the
sentinel. -/
theorem product_record_defaults (env : ScrapeEnv) (url : String) :
    (env.navRaises = none →
      (extract_product_details env url).seller_info =
        some { name := extract_seller_name env.details.sellerTexts }) ∧
    (∀ texts, sellerScan texts = "" → extract_seller_name texts = "Amazon") ∧
    (∀ e, env.navRaises = some e →
      extract_product_details env url =
        initProductData (resolve_short_url env.probe url)) ∧
    (∀ u2, (initProductData u2).name = "" ∧ (initProductData u2).price = "" ∧
      (initProductData u2).currency = "" ∧ (initProductData u2).rating = 0 ∧
      (initProductData u2).review_count = 0 ∧
      (initProductData u2).features = [] ∧
      (initProductData u2).seller_name = "" ∧
      (initProductData u2).asin = "" ∧ (initProductData u2).images = [] ∧
      (initProductData u2).seller_info = none ∧
      (initProductData u2).availability = none) := by
  refine ⟨?_, ?_, ?_, ?_⟩
  · intro hn
    unfold extract_product_details detailsTryBlock
    rw [hn]
    exact buildDetails_seller _ _
  · intro texts h
    unfold extract_seller_name
    rw [h]
    rfl
  · intro e he
    unfold extract_product_details detailsTryBlock
    rw [he]
  · intro u2
    exact ⟨rfl, rfl, rfl, rfl, rfl, rfl, rfl, rfl, rfl, rfl, rfl⟩

/-- Witness for the C8 amended theorem: a completed run with no usable
seller text stores the Amazon sentinel under seller_info. -/
theorem product_record_defaults_witness :
    (extract_product_details c8OkEnv c8Url).seller_info =
      some { name := "Amazon" } ∧ extract_seller_name [] = "Amazon" := by
  have h1 := (product_record_defaults c8OkEnv c8Url).1 rfl
  have h3 : extract_seller_name c8OkEnv.details.sellerTexts = "Amazon" :=
    (product_record_defaults c8OkEnv c8Url).2.1 c8OkEnv.details.sellerTexts
      rfl
  exact ⟨by rw [h1, h3], (product_record_defaults c8OkEnv c8Url).2.1 [] rfl⟩

/-- C9: an URL failing the closed allow-list exits with code 1 before any
scraping is started; the process exits 0 exactly when the URL passed the
allow-list and the completed run collected a non-empty review sequence, and
exits 1 exactly when the domain was invalid, the run was interrupted, or
zero reviews were collected. -/
theorem domain_gate_exit_codes (url : String) (o : RunOutcome) :
    (is_amazon_url url = false → mainRun url o = (1, false)) ∧
    ((mainRun url o).1 = 0 ↔
      (is_amazon_url url = true ∧
        ∃ r, o = RunOutcome.completed r ∧ r.reviews ≠ [])) ∧
    ((mainRun url o).1 = 1 ↔
      (is_amazon_url url = false ∨ o = RunOutcome.interrupted ∨
        ∃ r, o = RunOutcome.completed r ∧ r.reviews = [])) := by
  unfold mainRun
  cases hv : is_amazon_url url with
  | false => simp
  | true =>
    cases o with
    | interrupted => simp
    | completed r =>
      by_cases hr : r.reviews.isEmpty = true
      · simp [hr, List.isEmpty_iff.mp hr]
      · have hne : r.reviews ≠ [] := by
          intro he
          rw [he] at hr
          exact hr rfl
        simp [hr, hne]

/-- Witness for C9: a non-storefront URL exits 1 with no scraping, and a
completed Amazon run with one review exits 0. -/
theorem domain_gate_exit_codes_witness :
    mainRun "https://example.org/item" RunOutcome.interrupted = (1, false) ∧
    (mainRun "https://www.amazon.com/dp/B0123ABCDE"
      (RunOutcome.completed c9Result)).1 = 0 := by
  refine ⟨(domain_gate_exit_codes "https://example.org/item"
    RunOutcome.interrupted).1 (by decide), ?_⟩
  exact (domain_gate_exit_codes "https://www.amazon.com/dp/B0123ABCDE"
    (RunOutcome.completed c9Result)).2.1.mpr
    ⟨by decide, c9Result, rfl, by decide⟩

/-- Auxiliary: every review the loop keeps carries the page-global
reviewer name. -/
theorem extractReviewsLoop_reviewer (profileName : Option String) :
    ∀ nodes r, r ∈ extractReviewsLoop profileName nodes →
      r.reviewer_name = reviewerNameFrom profileName := by
  intro nodes
  induction nodes with
  | nil => intro r h; cases h
  | cons n rest ih =>
    intro r h
    unfold extractReviewsLoop at h
    cases hp : parseReviewNode profileName n with
    | none => rw [hp] at h; exact ih r h
    | some r0 =>
      rw [hp] at h
      simp only at h
      have hr0 : r0.reviewer_name = reviewerNameFrom profileName := by
        obtain ⟨idA, rEl, tEl, bEl, dEl, avp, helf, vine⟩ := n
        cases rEl <;> cases tEl <;> cases bEl <;> cases dEl <;>
          simp only [parseReviewNode, Option.some.injEq, reduceCtorEq] at hp
        rw [← hp]
      by_cases hg : (r0.review_text ≠ "" ∧
          10 ≤ (pyStrip r0.review_text).length)
      · rw [if_pos hg] at h
        rcases List.mem_cons.mp h with h1 | h1
        · rw [h1]; exact hr0
        · exact ih r h1
      · rw [if_neg hg] at h
        exact ih r h

/-- C10: every record the active extractor retains from a page carries the
one page-global reviewer name — the stripped text of the document-wide
first ".a-profile-name" element, or the "Anonymous" sentinel when the page
has none — because the lookup searches the whole document rather than the
review node; hence any two retained records agree on reviewerName. -/
theorem reviewer_name_page_global (p : PageSnapshot) (r : Review)
    (h : r ∈ extractReviewsFromPage p) :
    r.reviewer_name = reviewerNameFrom p.profileName ∧
    ∀ r2 ∈ extractReviewsFromPage p, r2.reviewer_name = r.reviewer_name := by
  have h1 := extractReviewsLoop_reviewer p.profileName p.reviewNodes r h
  refine ⟨h1, ?_⟩
  intro r2 h2
  rw [extractReviewsLoop_reviewer p.profileName p.reviewNodes r2 h2, h1]

/-- Witness for C10: on a two-review page whose profile element reads
" Casey ", the first retained record is named Casey. -/
theorem reviewer_name_page_global_witness :
    c10Rec.reviewer_name = reviewerNameFrom c10Page.profileName :=
  (reviewer_name_page_global c10Page c10Rec (by decide)).1

end EScrape
